import Mathlib

/-!
Shallow embedding of `src/action/run-in-renode.py` from the
renode-linux-runner-action repository, together with proofs about the
claims of its specification.

The script orchestrates an emulation test run.  We embed:

* a model of Python `dict` values as association lists in insertion order,
  with `d1 | d2` union semantics (`pyUnion`) and `dict.get` (`argGet`);
* the `Task` construction interface (`command.py` is not part of the
  sources, so `Task.load_from_yaml` is kept abstract as a function
  parameter and `Task.from_multiline_string` is modelled from the spec);
* `configure_board`, `test_task` and `prepare_image`, with their external
  effects (`get_file`, `burn_rootfs_image`, appending to the module-level
  `commands` list) reified as data;
* the dispatcher-facing tail of `__main__` (lines 179-193) as a list of
  `DispatcherEvent`s, and `orchestrate`, which chains `configure_board`,
  the custom-kernel check and the `archs[arch].network_available` lookup
  (with Python's short-circuiting `or`) in source order.
-/

namespace RenodeAction

/-! ### Python dictionaries as association lists

A Python `dict` is modelled as a list of key-value pairs in insertion
order; a well-formed dict has pairwise-distinct keys. -/

abbrev PyDict (α : Type) := List (String × α)

/-- `d[k]` as an `Option`: the first entry whose key equals `k`. -/
def pyLookup {α : Type} (d : PyDict α) (k : String) : Option α :=
  (d.find? (fun q => q.1 == k)).map (fun q => q.2)

/-- The keys of a dict, in insertion order. -/
def keys {α : Type} (d : PyDict α) : List String :=
  d.map (fun q => q.1)

/-- Python `d1 | d2` (PEP 584 dict union): the keys of `d1` in their
order, each with `d2`'s value when `d2` also binds the key, followed by
the keys of `d2` that are absent from `d1`, in `d2`'s order. -/
def pyUnion {α : Type} (d1 d2 : PyDict α) : PyDict α :=
  (d1.map (fun q => (q.1, (pyLookup d2 q.1).getD q.2))) ++
    d2.filter (fun q => (pyLookup d1 q.1).isNone)

/-- Python `args.get(k, dflt)`. -/
def argGet (args : PyDict String) (k dflt : String) : String :=
  (pyLookup args k).getD dflt

/-! ### The Task model

`from command import Task`: `command.py` is not among the sources, so the
`Task` interface is modelled from the spec (§4.1). -/

/-- The fixed override/parameter dictionary passed by `test_task`
(source lines 91-96). -/
structure Params where
  name : String
  shell : String
  requires : List String
  echo : Bool
deriving DecidableEq

/-- Modelled from the spec: a Task is "an immutable declaration of one
unit of work: a target execution context, a list of required
capabilities, an echo/verbosity flag, and a body". -/
structure Task where
  name : String
  shell : String
  requires : List String
  echo : Bool
  body : List String
deriving DecidableEq

/-- `yaml.YAMLError`, the exception class caught by `test_task`. -/
inductive ParseError where
  | yamlError (msg : String)
deriving DecidableEq

/-- Modelled from the spec: `Task.from_multiline_string(name, text,
params)` "builds a task whose body is the literal line-split content of
`text`, using `params` verbatim for all declared fields
(name/shell/requires/echo) plus the supplied `name`. Never fails". -/
def Task.from_multiline_string (name : String) (text : String) (params : Params) : Task :=
  { name := name
    shell := params.shell
    requires := params.requires
    echo := params.echo
    body := text.splitOn "\n" }

/-- The fixed parameters of `test_task` (source lines 91-96):
`name="action_test"`, `shell="target"`, `requires=["chroot","python"]`,
`echo=True`. -/
def actionTestParams : Params :=
  { name := "action_test"
    shell := "target"
    requires := ["chroot", "python"]
    echo := true }

/-- `test_task` (source lines 89-101).  `Task.load_from_yaml` lives in
the absent `command.py`, so it is taken as a function parameter
returning either a task or a `yaml.YAMLError`; the `try`/`except
yaml.YAMLError` of the source becomes the `match`. -/
def test_task (load_from_yaml : String → Params → Except ParseError Task)
    (test_task_str : String) : Task :=
  match load_from_yaml test_task_str actionTestParams with
  | .ok t => t
  | .error _ => Task.from_multiline_string "action_test" test_task_str actionTestParams

/-! ### Architectures and `configure_board` -/

/-- An entry of the `archs` table from the absent `common.py`; the
source reads the fields `default_board` and `network_available`. -/
structure ArchInfo where
  default_board : String
  network_available : Bool
deriving DecidableEq

/-- The `archs` table, kept abstract as an association list since
`common.py` is not among the sources. -/
abbrev Archs := PyDict ArchInfo

/-- The result of `configure_board`: the `get_file` calls it performed,
as (source, destination) pairs in call order, and the returned
`(arch, board)` pair. -/
structure BoardResult where
  fetches : List (String × String)
  arch : String
  board : String
deriving DecidableEq

/-- `configure_board` (source lines 46-86).  `get_file(src, dst)` calls
are reified into the `fetches` list; `error(...)` terminates the run and
becomes `Except.error`.  Line 84 passes `resc`, not `repl`, as the
source of the `platform.repl` fetch, exactly as in the code. -/
def configure_board (archs : Archs) (user_directory : String) (custom_config : String)
    (arch : String) (board : String) (resc : String) (repl : String) :
    Except String BoardResult :=
  if custom_config ≠ "none" then
    .ok { fetches := [(custom_config, "action/device/custom")], arch := arch, board := "custom" }
  else
    match pyLookup archs arch with
    | none => .error "Architecture not supportted!"
    | some info =>
      let board := if board = "default" then info.default_board else board
      if board = "custom" ∧ (resc = "default" ∨ repl = "default") then
        .error "You have to provide resc and repl for custom board"
      else
        .ok { fetches :=
                (if resc ≠ "default" then
                  [(resc, "action/device/" ++ board ++ "/init.resc")] else []) ++
                (if repl ≠ "default" then
                  [(resc, "action/device/" ++ board ++ "/platform.repl")] else [])
              arch := arch
              board := board }

/-! ### `prepare_image` and the module-level `commands` list -/

/-- Python `s.strip()`: drop leading and trailing whitespace. -/
def pyStrip (s : String) : String :=
  String.mk (((s.data.dropWhile Char.isWhitespace).reverse.dropWhile
    Char.isWhitespace).reverse)

/-- The module-level `commands` list as initialised at source lines
41-43: `[["mkdir", "rootfs"]]`. -/
def initial_commands : List (List String) :=
  [["mkdir", "rootfs"]]

/-- `DEFAULT_IMAGE_PATH.format(action_repo, action_ref, arch)` (source
lines 37 and 114): each `\x7b\x7d` of the template is filled by the next
argument. -/
def default_image_path (action_repo : String) (action_ref : String) (arch : String) : String :=
  "https://github.com/" ++ action_repo ++ "/releases/download/" ++ action_ref ++
    "/image-" ++ arch ++ "-default.tar.xz"

/-- An observable effect of `prepare_image`: a `burn_rootfs_image(...)`
call (from the absent `images.py`, recorded with its arguments) or an
append to the module-level `commands` list. -/
inductive ImageEffect where
  | burnRootfs (user_directory : String) (image : String) (arch : String)
      (rootfs_size : String) (image_type : String)
  | appendCommand (cmd : List String)
deriving DecidableEq

/-- The effect trace of `prepare_image` (source lines 104-124), in
execution order. -/
def prepare_image (action_repo : String) (action_ref : String)
    (user_directory : String) (image : String) (arch : String)
    (rootfs_size : String) (image_type : String) : List ImageEffect :=
  if image = "none" then []
  else
    let image := if pyStrip image = "" then default_image_path action_repo action_ref arch
                 else image
    [ .burnRootfs user_directory image arch rootfs_size image_type,
      .appendCommand ["sudo", "mount", "images/rootfs.img", "rootfs"] ]

/-- The `commands` list after a list of effects: the appends of the
trace, in order, after the initial contents. -/
def commands_after (cmds : List (List String)) (effects : List ImageEffect) :
    List (List String) :=
  cmds ++ effects.filterMap (fun e =>
    match e with
    | .appendCommand c => some c
    | _ => none)

/-! ### Timestamps

`datetime.now().strftime("%Y-%m-%d %H:%M:%S")` (source line 180): the
wall-clock instant is an input of the run, modelled as a `Datetime`
record; `strftime` with this fixed format string zero-pads every field
(`%Y` to four digits, the rest to two). -/

structure Datetime where
  year : Nat
  month : Nat
  day : Nat
  hour : Nat
  minute : Nat
  second : Nat
deriving DecidableEq

/-- Zero-pad the decimal representation of `n` to `width` characters. -/
def padZero (width : Nat) (n : Nat) : String :=
  String.mk (List.replicate (width - (toString n).length) '0') ++ toString n

/-- `strftime("%Y-%m-%d %H:%M:%S")` on a `Datetime`. -/
def strftimeDefault (d : Datetime) : String :=
  padZero 4 d.year ++ "-" ++ padZero 2 d.month ++ "-" ++ padZero 2 d.day ++ " " ++
    padZero 2 d.hour ++ ":" ++ padZero 2 d.minute ++ ":" ++ padZero 2 d.second

/-! ### The dispatcher-facing tail of `__main__` -/

/-- A call made by `__main__` on the `CommandDispatcher` (source lines
179-193): construction, `enable_task`, `add_task`, `evaluate`. -/
inductive DispatcherEvent where
  | construct (board : String) (template_vars : List (String × String))
      (optional_tasks : PyDict (PyDict String))
  | enableTask (name : String) (enabled : Bool)
  | addTask (t : Task)
  | evaluate
deriving DecidableEq

/-- The sequence of dispatcher calls issued by `__main__` lines 179-193,
given the merged inputs: `devices` and `python_packages` are the results
of `add_devices` / `add_packages` (absent modules), `now` the wall-clock
instant read at line 180, `network_input` the value of
`args.get("network", "true")`, and `network_available` the value of
`archs[arch].network_available` whenever line 187 evaluates it. -/
def main_dispatcher_trace (devices : PyDict (PyDict String))
    (python_packages : PyDict (PyDict String)) (board : String) (now : Datetime)
    (network_input : String) (network_available : Bool) (renode_run : String)
    (load_from_yaml : String → Params → Except ParseError Task) :
    List DispatcherEvent :=
  let optional_tasks := pyUnion devices python_packages
  DispatcherEvent.construct board
      [("NOW", strftimeDefault now), ("BOARD", board)] optional_tasks ::
    (optional_tasks.map (fun task => DispatcherEvent.enableTask task.1 true)) ++
    (if network_input ≠ "true" ∨ network_available = false then
      ["host", "renode", "target"].map
        (fun i => DispatcherEvent.enableTask (i ++ "_network") false)
    else []) ++
    [DispatcherEvent.addTask (test_task load_from_yaml renode_run),
     DispatcherEvent.evaluate]

/-- `__main__` from `configure_board` (line 144) to `evaluate` (line
193), restricted to the steps that feed the dispatcher: the board
resolution, the custom-kernel check (line 154), and the network
condition of line 187.  Python's `or` short-circuits, so
`archs[arch].network_available` — an unguarded `dict` access that raises
`KeyError` on a missing key — is only evaluated when
`args.get("network", "true")` equals `"true"`; in the short-circuited
case the flag passed on to the trace is irrelevant (the disable branch
is taken regardless) and `true` stands in for it. -/
def orchestrate_after_board (archs : Archs) (args : PyDict String)
    (devices : PyDict (PyDict String)) (python_packages : PyDict (PyDict String))
    (now : Datetime)
    (load_from_yaml : String → Params → Except ParseError Task)
    (cb : BoardResult) : Except String (List DispatcherEvent) :=
  if pyStrip (argGet args "kernel" "") = "" ∧ cb.board = "custom" then
    Except.error "You have to provide custom kernel for custom board."
  else if argGet args "network" "true" = "true" then
    match pyLookup archs cb.arch with
    | none => Except.error ("KeyError: " ++ cb.arch)
    | some info =>
      Except.ok (main_dispatcher_trace devices python_packages cb.board now
        (argGet args "network" "true") info.network_available
        (argGet args "renode-run" "") load_from_yaml)
  else
    Except.ok (main_dispatcher_trace devices python_packages cb.board now
      (argGet args "network" "true") true (argGet args "renode-run" "") load_from_yaml)

/-- `__main__` lines 144-193: resolve the board with `configure_board`,
then run the dispatcher-facing steps. -/
def orchestrate (archs : Archs) (user_directory : String) (args : PyDict String)
    (devices : PyDict (PyDict String)) (python_packages : PyDict (PyDict String))
    (now : Datetime)
    (load_from_yaml : String → Params → Except ParseError Task) :
    Except String (List DispatcherEvent) :=
  match configure_board archs user_directory
    (argGet args "custom-config" "none") (argGet args "arch" "riscv64")
    (argGet args "board" "default") (argGet args "resc" "default")
    (argGet args "repl" "default") with
  | .error e => .error e
  | .ok cb =>
    orchestrate_after_board archs args devices python_packages now load_from_yaml cb

/-! ### Predicates over dispatcher events -/

/-- An `enable_task(name, False)` call. -/
def isDisableEvent : DispatcherEvent → Bool
  | .enableTask _ false => true
  | _ => false

/-- Any `enable_task` call. -/
def isEnableEvent : DispatcherEvent → Bool
  | .enableTask _ _ => true
  | _ => false

/-- An `add_task` call. -/
def isAddTaskEvent : DispatcherEvent → Bool
  | .addTask _ => true
  | _ => false

/-- The ordering asserted by the spec's control-flow sentence: the
catalog is complete — in particular the user test task is installed via
`add_task` — before any activation call happens; i.e. no `add_task`
occurs at or after the first `enable_task` call of the trace. -/
def catalogCompleteBeforeActivation (tr : List DispatcherEvent) : Bool :=
  match tr.findIdx? isEnableEvent with
  | none => true
  | some i => !((tr.drop i).any isAddTaskEvent)

/-! ### Concrete YAML loaders used to instantiate the abstract
`Task.load_from_yaml` parameter in witnesses -/

/-- A loader on which YAML parsing always succeeds, honouring the
overrides for the declared fields. -/
def loadAlwaysOk : String → Params → Except ParseError Task :=
  fun _ p =>
    .ok { name := p.name
          shell := p.shell
          requires := p.requires
          echo := p.echo
          body := ["parsed"] }

/-- A loader on which YAML parsing always fails. -/
def loadAlwaysErr : String → Params → Except ParseError Task :=
  fun _ _ => .error (.yamlError "could not parse")

/-! ### Lookup lemmas for the dict model -/

theorem pyLookup_nil {α : Type} (k : String) : pyLookup ([] : PyDict α) k = none := rfl

theorem pyLookup_cons {α : Type} (q : String × α) (t : PyDict α) (k : String) :
    pyLookup (q :: t) k = if q.1 = k then some q.2 else pyLookup t k := by
  by_cases h : q.1 = k
  · simp [pyLookup, List.find?_cons_of_pos, h]
  · simp [pyLookup, List.find?_cons_of_neg, h]

theorem pyLookup_append {α : Type} (l₁ l₂ : PyDict α) (k : String) :
    pyLookup (l₁ ++ l₂) k = (pyLookup l₁ k).or (pyLookup l₂ k) := by
  simp [pyLookup, List.find?_append]
  cases List.find? (fun q => q.1 == k) l₁ <;> simp

theorem pyLookup_map_value {α β : Type} (f : String → α → β) (d : PyDict α) (k : String) :
    pyLookup (d.map (fun q => (q.1, f q.1 q.2))) k = (pyLookup d k).map (f k) := by
  induction d with
  | nil => rfl
  | cons q t ih =>
    by_cases h : q.1 = k
    · subst h
      simp [pyLookup_cons]
    · simp [List.map_cons, pyLookup_cons, h, ih]

theorem pyLookup_filter_key {α : Type} (pr : String → Bool) (d : PyDict α) (k : String) :
    pyLookup (d.filter (fun q => pr q.1)) k = if pr k then pyLookup d k else none := by
  induction d with
  | nil => simp [pyLookup_nil]
  | cons q t ih =>
    by_cases h : q.1 = k
    · subst h
      by_cases hp : pr q.1 <;> simp [List.filter_cons, hp, pyLookup_cons, ih]
    · by_cases hp : pr q.1 <;> simp [List.filter_cons, hp, pyLookup_cons, h, ih]

theorem pyLookup_isSome_iff_mem_keys {α : Type} (d : PyDict α) (k : String) :
    (pyLookup d k).isSome = true ↔ k ∈ keys d := by
  induction d with
  | nil => simp [pyLookup_nil, keys]
  | cons q t ih =>
    by_cases h : q.1 = k
    · subst h
      simp [pyLookup_cons, keys]
    · simp only [pyLookup_cons, if_neg h, keys, List.map_cons, List.mem_cons]
      constructor
      · intro hs
        exact Or.inr (ih.mp hs)
      · rintro (h' | hm)
        · exact absurd h'.symm h
        · exact ih.mpr hm

/-- Claim C4: the merged optional-task mapping `devices | python_packages`
has "last writer wins" semantics: a name bound by the python-packages
dict resolves to its python-packages entry, and a name it does not bind
resolves exactly as in the devices dict (so names present in only one
input keep their value, and names in neither are absent). -/
theorem pyUnion_last_writer_wins {α : Type} (devices python_packages : PyDict α)
    (k : String) :
    pyLookup (pyUnion devices python_packages) k =
      match pyLookup python_packages k with
      | some v => some v
      | none => pyLookup devices k := by
  unfold pyUnion
  rw [pyLookup_append, pyLookup_map_value (fun k v => (pyLookup python_packages k).getD v),
    pyLookup_filter_key (fun k => (pyLookup devices k).isNone)]
  cases hd : pyLookup devices k <;> cases hp : pyLookup python_packages k <;> simp [hd, hp]

/-- Claim C1: `test_task` first attempts `Task.load_from_yaml` with the
fixed overrides of `actionTestParams`, and returns its task exactly when
that attempt succeeds; it returns
`Task.from_multiline_string "action_test" s actionTestParams` exactly
when the attempt raises a YAML parse error — so a YAML-valid
specification never takes the raw-string fallback and a non-YAML script
always does. -/
theorem test_task_fallback_iff
    (load_from_yaml : String → Params → Except ParseError Task) (s : String) :
    (∀ t, load_from_yaml s actionTestParams = .ok t → test_task load_from_yaml s = t) ∧
    (∀ e, load_from_yaml s actionTestParams = .error e →
      test_task load_from_yaml s =
        Task.from_multiline_string "action_test" s actionTestParams) := by
  constructor
  · intro t h
    simp [test_task, h]
  · intro e h
    simp [test_task, h]

theorem test_task_fallback_iff_witness :
    test_task loadAlwaysOk "a: b" =
      { name := "action_test", shell := "target", requires := ["chroot", "python"],
        echo := true, body := ["parsed"] } ∧
    test_task loadAlwaysErr "echo hi" =
      Task.from_multiline_string "action_test" "echo hi" actionTestParams :=
  ⟨(test_task_fallback_iff loadAlwaysOk "a: b").1 _ rfl,
   (test_task_fallback_iff loadAlwaysErr "echo hi").2 _ rfl⟩

/-- Claim C7: `test_task` applied to the empty string returns a task
named `"action_test"` and raises no error: in the model `test_task` is
total — the only exception `load_from_yaml` may raise is a YAML parse
error, and the `except` clause converts it into the raw-string fallback,
which never fails — and on either path the resulting task carries the
overridden name `"action_test"` (on the YAML path because fields of the
override dict replace parsed fields, which is the hypothesis `hname`). -/
theorem test_task_empty_string_ok
    (load_from_yaml : String → Params → Except ParseError Task)
    (hname : ∀ s p t, load_from_yaml s p = .ok t → t.name = p.name) :
    (test_task load_from_yaml "").name = "action_test" := by
  unfold test_task
  cases h : load_from_yaml "" actionTestParams with
  | ok t => simpa [actionTestParams] using hname "" actionTestParams t h
  | error e => rfl

theorem test_task_empty_string_ok_witness :
    (test_task loadAlwaysOk "").name = "action_test" ∧
    (test_task loadAlwaysErr "").name = "action_test" :=
  ⟨test_task_empty_string_ok loadAlwaysOk
      (fun s p t h => by cases h; rfl),
   test_task_empty_string_ok loadAlwaysErr
      (fun s p t h => by cases h)⟩

/-- Claim C2: with `custom_config = "none"` and both `resc` and `repl`
different from `"default"` (and a supported architecture), the
`get_file` calls of `configure_board` stage both the init-script
destination `action/device/{board}/init.resc` and the
platform-description destination `action/device/{board}/platform.repl`
from the `resc` argument; the `repl` argument is never a fetch source
(source line 84 passes `resc` where `repl` was evidently meant). -/
theorem configure_board_resc_applied_twice (archs : Archs)
    (user_directory arch board resc repl : String) (info : ArchInfo)
    (hfind : pyLookup archs arch = some info)
    (hresc : resc ≠ "default") (hrepl : repl ≠ "default") :
    ∃ r, configure_board archs user_directory "none" arch board resc repl = .ok r ∧
      r.fetches = [(resc, "action/device/" ++ r.board ++ "/init.resc"),
                   (resc, "action/device/" ++ r.board ++ "/platform.repl")] ∧
      ∀ f ∈ r.fetches, f.1 = resc := by
  refine ⟨⟨[(resc, "action/device/" ++
        (if board = "default" then info.default_board else board) ++ "/init.resc"),
      (resc, "action/device/" ++
        (if board = "default" then info.default_board else board) ++ "/platform.repl")],
      arch, if board = "default" then info.default_board else board⟩, ?_, ?_, ?_⟩
  · simp [configure_board, hfind, hresc, hrepl]
  · rfl
  · intro f hf
    simp at hf
    rcases hf with h | h <;> simp [h]

theorem configure_board_resc_applied_twice_witness :
    ∃ r, configure_board [("riscv64", ⟨"hifive_unleashed", true⟩)] "ud" "none"
        "riscv64" "myboard" "https://example.com/my.resc" "https://example.com/my.repl"
        = .ok r ∧
      r.fetches = [("https://example.com/my.resc", "action/device/" ++ r.board ++ "/init.resc"),
                   ("https://example.com/my.resc", "action/device/" ++ r.board ++ "/platform.repl")] ∧
      ∀ f ∈ r.fetches, f.1 = "https://example.com/my.resc" :=
  configure_board_resc_applied_twice [("riscv64", ⟨"hifive_unleashed", true⟩)] "ud"
    "riscv64" "myboard" "https://example.com/my.resc" "https://example.com/my.repl"
    ⟨"hifive_unleashed", true⟩ rfl (by decide) (by decide)

/-- Claim C10: `prepare_image` with `image = "none"` returns before any
effect — no rootfs burn, and the module-level `commands` list keeps only
its initial `["mkdir", "rootfs"]` entry; with any other image value it
burns the rootfs image and then appends exactly one mount command to
that list. -/
theorem prepare_image_frame (action_repo action_ref user_directory image arch
    rootfs_size image_type : String) (himg : image ≠ "none") :
    prepare_image action_repo action_ref user_directory "none" arch rootfs_size
        image_type = [] ∧
    commands_after initial_commands
        (prepare_image action_repo action_ref user_directory "none" arch rootfs_size
          image_type) = [["mkdir", "rootfs"]] ∧
    ∃ img,
      prepare_image action_repo action_ref user_directory image arch rootfs_size
          image_type =
        [ImageEffect.burnRootfs user_directory img arch rootfs_size image_type,
         ImageEffect.appendCommand ["sudo", "mount", "images/rootfs.img", "rootfs"]] ∧
      commands_after initial_commands
          (prepare_image action_repo action_ref user_directory image arch rootfs_size
            image_type) =
        [["mkdir", "rootfs"], ["sudo", "mount", "images/rootfs.img", "rootfs"]] := by
  refine ⟨rfl, rfl,
    (if pyStrip image = "" then default_image_path action_repo action_ref arch else image),
    ?_, ?_⟩
  · simp [prepare_image, himg]
  · simp [prepare_image, himg, commands_after, initial_commands]

theorem prepare_image_frame_witness :
    prepare_image "owner/repo" "v1" "ud" "none" "riscv64" "auto" "native" = [] ∧
    commands_after initial_commands
        (prepare_image "owner/repo" "v1" "ud" "none" "riscv64" "auto" "native") =
      [["mkdir", "rootfs"]] ∧
    ∃ img,
      prepare_image "owner/repo" "v1" "ud" "https://example.com/img.tar.xz" "riscv64"
          "auto" "native" =
        [ImageEffect.burnRootfs "ud" img "riscv64" "auto" "native",
         ImageEffect.appendCommand ["sudo", "mount", "images/rootfs.img", "rootfs"]] ∧
      commands_after initial_commands
          (prepare_image "owner/repo" "v1" "ud" "https://example.com/img.tar.xz"
            "riscv64" "auto" "native") =
        [["mkdir", "rootfs"], ["sudo", "mount", "images/rootfs.img", "rootfs"]] :=
  prepare_image_frame "owner/repo" "v1" "ud" "https://example.com/img.tar.xz" "riscv64"
    "auto" "native" (by decide)

theorem filter_isDisableEvent_enable_true (l : PyDict (PyDict String)) :
    (l.map (fun q => DispatcherEvent.enableTask q.1 true)).filter isDisableEvent = [] := by
  induction l with
  | nil => rfl
  | cons q t ih => simpa [List.filter_cons, isDisableEvent] using ih

/-- Claim C3: the `enable_task(-, False)` calls of a run are exactly the
three for `"host_network"`, `"renode_network"` and `"target_network"`
when the `network` input differs from `"true"` or the architecture's
`network_available` flag is false, and there are none otherwise. -/
theorem network_tasks_disabled_iff_unavailable
    (devices python_packages : PyDict (PyDict String)) (board : String) (now : Datetime)
    (network_input : String) (network_available : Bool) (renode_run : String)
    (load_from_yaml : String → Params → Except ParseError Task) :
    (main_dispatcher_trace devices python_packages board now network_input
        network_available renode_run load_from_yaml).filter isDisableEvent =
      if network_input ≠ "true" ∨ network_available = false then
        [DispatcherEvent.enableTask "host_network" false,
         DispatcherEvent.enableTask "renode_network" false,
         DispatcherEvent.enableTask "target_network" false]
      else [] := by
  unfold main_dispatcher_trace
  by_cases h : network_input ≠ "true" ∨ network_available = false
  · simp [h, List.filter_append, List.filter_cons, filter_isDisableEvent_enable_true,
      isDisableEvent]
  · simp [h, List.filter_append, List.filter_cons, filter_isDisableEvent_enable_true,
      isDisableEvent]

/-! ### Lemmas for the optional-task enabling loop -/

theorem keys_pyUnion {α : Type} (d1 d2 : PyDict α) :
    keys (pyUnion d1 d2) =
      keys d1 ++ keys (d2.filter (fun q => (pyLookup d1 q.1).isNone)) := by
  simp [keys, pyUnion, List.map_map, Function.comp]

theorem nodup_keys_pyUnion {α : Type} (d1 d2 : PyDict α)
    (h1 : (keys d1).Nodup) (h2 : (keys d2).Nodup) :
    (keys (pyUnion d1 d2)).Nodup := by
  rw [keys_pyUnion]
  refine List.Nodup.append h1 (h2.sublist ((List.filter_sublist d2).map _)) ?_
  intro a ha1 ha2
  rcases List.mem_map.mp ha2 with ⟨q, hq, hkey⟩
  rcases List.mem_filter.mp hq with ⟨_, hnone⟩
  have hsome := (pyLookup_isSome_iff_mem_keys d1 a).mpr ha1
  rw [← hkey] at hsome
  simp [Option.isNone_iff_eq_none] at hnone
  rw [hnone] at hsome
  cases hsome

theorem count_enableTask_map (l : List String) (name : String) :
    ((l.map (fun n => DispatcherEvent.enableTask n true)).count
      (DispatcherEvent.enableTask name true)) = l.count name :=
  List.count_map_of_injective l (fun n => DispatcherEvent.enableTask n true)
    (fun a b h => by simpa using h) name

/-- Claim C5: after construction, `__main__` issues `enable_task(name,
True)` exactly once for every task name of the merged optional-task
mapping `devices | python_packages` (the dicts have pairwise-distinct
keys, as every Python dict does), so every discovered optional task is
unconditionally enabled. -/
theorem optional_tasks_enabled_exactly_once
    (devices python_packages : PyDict (PyDict String)) (board : String) (now : Datetime)
    (network_input : String) (network_available : Bool) (renode_run : String)
    (load_from_yaml : String → Params → Except ParseError Task) (name : String)
    (h1 : (keys devices).Nodup) (h2 : (keys python_packages).Nodup)
    (hmem : name ∈ keys (pyUnion devices python_packages)) :
    (main_dispatcher_trace devices python_packages board now network_input
        network_available renode_run load_from_yaml).count
      (DispatcherEvent.enableTask name true) = 1 := by
  have hmap : (pyUnion devices python_packages).map
      (fun q => DispatcherEvent.enableTask q.1 true) =
      (keys (pyUnion devices python_packages)).map
        (fun n => DispatcherEvent.enableTask n true) := by
    simp [keys, List.map_map, Function.comp]
  have hA : ((pyUnion devices python_packages).map
      (fun q => DispatcherEvent.enableTask q.1 true)).count
      (DispatcherEvent.enableTask name true) = 1 := by
    rw [hmap, count_enableTask_map]
    exact List.count_eq_one_of_mem (nodup_keys_pyUnion _ _ h1 h2) hmem
  unfold main_dispatcher_trace
  by_cases h : network_input ≠ "true" ∨ network_available = false
  · simp [h, List.count_append, List.count_cons, hA]
  · simp [h, List.count_append, List.count_cons, hA]

theorem optional_tasks_enabled_exactly_once_witness :
    (main_dispatcher_trace [("gpio", [("cmd", "enable gpio")])] [] "hifive_unleashed"
        ⟨2026, 10, 12, 8, 30, 0⟩ "true" true "" loadAlwaysErr).count
      (DispatcherEvent.enableTask "gpio" true) = 1 :=
  optional_tasks_enabled_exactly_once [("gpio", [("cmd", "enable gpio")])] []
    "hifive_unleashed" ⟨2026, 10, 12, 8, 30, 0⟩ "true" true "" loadAlwaysErr "gpio"
    (by decide) (by decide) (by decide)

/-- Claim C6 (counterexample): on a run with one discovered optional
task, `__main__` enables that task (an activation call) before it
installs the user test task with `add_task`, so the catalog is not
complete when the activation rules are applied — the code adds the test
task after the enable/disable loops, not before. -/
theorem catalog_complete_before_activation_counterexample :
    catalogCompleteBeforeActivation
      (main_dispatcher_trace [("gpio", [("cmd", "enable gpio")])] [] "hifive_unleashed"
        ⟨2026, 10, 12, 8, 30, 0⟩ "true" true "" loadAlwaysErr) = false := by
  rfl

/-- Claim C6 (amended): `__main__` first constructs the dispatcher —
seeding the catalog with the built-in tasks and the merged optional
tasks — then issues only `enable_task` calls (the activation rules:
enabling every optional task, disabling the network tasks when
networking is unavailable), then installs the user test task via
`add_task`, and only then calls `evaluate`, which is the last dispatcher
call of the run. -/
theorem construct_activate_add_evaluate_order
    (devices python_packages : PyDict (PyDict String)) (board : String) (now : Datetime)
    (network_input : String) (network_available : Bool) (renode_run : String)
    (load_from_yaml : String → Params → Except ParseError Task) :
    ∃ activation : List DispatcherEvent,
      main_dispatcher_trace devices python_packages board now network_input
          network_available renode_run load_from_yaml =
        DispatcherEvent.construct board
            [("NOW", strftimeDefault now), ("BOARD", board)]
            (pyUnion devices python_packages) ::
          activation ++
          [DispatcherEvent.addTask (test_task load_from_yaml renode_run),
           DispatcherEvent.evaluate] ∧
      ∀ e ∈ activation, ∃ n b, e = DispatcherEvent.enableTask n b := by
  refine ⟨(pyUnion devices python_packages).map
      (fun task => DispatcherEvent.enableTask task.1 true) ++
      (if network_input ≠ "true" ∨ network_available = false then
        ["host", "renode", "target"].map
          (fun i => DispatcherEvent.enableTask (i ++ "_network") false)
      else []), ?_, ?_⟩
  · simp [main_dispatcher_trace]
  · intro e he
    rcases List.mem_append.mp he with h | h
    · rcases List.mem_map.mp h with ⟨q, _, rfl⟩
      exact ⟨q.1, true, rfl⟩
    · split at h
      · rcases List.mem_map.mp h with ⟨i, _, rfl⟩
        exact ⟨i ++ "_network", false, rfl⟩
      · cases h

theorem orchestrate_of_board_ok (archs : Archs) (user_directory : String)
    (args : PyDict String) (devices python_packages : PyDict (PyDict String))
    (now : Datetime) (load_from_yaml : String → Params → Except ParseError Task)
    (cb : BoardResult)
    (hcb : configure_board archs user_directory (argGet args "custom-config" "none")
      (argGet args "arch" "riscv64") (argGet args "board" "default")
      (argGet args "resc" "default") (argGet args "repl" "default") = .ok cb) :
    orchestrate archs user_directory args devices python_packages now load_from_yaml =
      orchestrate_after_board archs args devices python_packages now load_from_yaml cb := by
  unfold orchestrate
  rw [hcb]

/-- Claim C8: whenever a run reaches the dispatcher, the first
dispatcher call constructs it with the template-variable mapping whose
keys are exactly `"NOW"` and `"BOARD"`, where `NOW` is bound to the
run's start instant formatted `"%Y-%m-%d %H:%M:%S"` and `BOARD` to the
board name resolved by `configure_board`. -/
theorem dispatcher_template_vars (archs : Archs) (user_directory : String)
    (args : PyDict String) (devices python_packages : PyDict (PyDict String))
    (now : Datetime) (load_from_yaml : String → Params → Except ParseError Task)
    (tr : List DispatcherEvent)
    (h : orchestrate archs user_directory args devices python_packages now
      load_from_yaml = .ok tr) :
    ∃ cb, configure_board archs user_directory (argGet args "custom-config" "none")
        (argGet args "arch" "riscv64") (argGet args "board" "default")
        (argGet args "resc" "default") (argGet args "repl" "default") = .ok cb ∧
      keys [("NOW", strftimeDefault now), ("BOARD", cb.board)] = ["NOW", "BOARD"] ∧
      tr.head? = some (DispatcherEvent.construct cb.board
        [("NOW", strftimeDefault now), ("BOARD", cb.board)]
        (pyUnion devices python_packages)) := by
  cases hcb : configure_board archs user_directory (argGet args "custom-config" "none")
      (argGet args "arch" "riscv64") (argGet args "board" "default")
      (argGet args "resc" "default") (argGet args "repl" "default") with
  | error e =>
    unfold orchestrate at h
    rw [hcb] at h
    cases h
  | ok cb =>
    rw [orchestrate_of_board_ok archs user_directory args devices python_packages now
      load_from_yaml cb hcb] at h
    refine ⟨cb, rfl, rfl, ?_⟩
    unfold orchestrate_after_board at h
    by_cases h1 : pyStrip (argGet args "kernel" "") = "" ∧ cb.board = "custom"
    · rw [if_pos h1] at h
      cases h
    · rw [if_neg h1] at h
      by_cases h2 : argGet args "network" "true" = "true"
      · rw [if_pos h2] at h
        cases hl : pyLookup archs cb.arch with
        | none =>
          rw [hl] at h
          cases h
        | some info =>
          rw [hl] at h
          cases h
          rfl
      · rw [if_neg h2] at h
        cases h
        rfl

theorem dispatcher_template_vars_witness :
    ∃ cb, configure_board [("riscv64", ArchInfo.mk "hifive_unleashed" true)] "ud"
        "none" "riscv64" "default" "default" "default" = .ok cb ∧
      keys [("NOW", strftimeDefault ⟨2026, 10, 12, 8, 30, 0⟩), ("BOARD", cb.board)] =
        ["NOW", "BOARD"] ∧
      (main_dispatcher_trace [] [] "hifive_unleashed" ⟨2026, 10, 12, 8, 30, 0⟩ "true"
          true "" loadAlwaysErr).head? =
        some (DispatcherEvent.construct cb.board
          [("NOW", strftimeDefault ⟨2026, 10, 12, 8, 30, 0⟩), ("BOARD", cb.board)]
          (pyUnion [] [])) :=
  dispatcher_template_vars [("riscv64", ArchInfo.mk "hifive_unleashed" true)] "ud" []
    [] [] ⟨2026, 10, 12, 8, 30, 0⟩ loadAlwaysErr
    (main_dispatcher_trace [] [] "hifive_unleashed" ⟨2026, 10, 12, 8, 30, 0⟩ "true"
      true "" loadAlwaysErr)
    rfl

/-- Claim C9 (counterexample): with a custom config, an architecture
absent from the `archs` table and the `network` input set to
`"false"`, the run does NOT fail: Python's short-circuiting `or` at
line 187 skips the `archs[arch]` access whenever
`args.get("network", "true")` differs from `"true"`, so the unguarded
lookup does not fail "for any arch not in that table" as claimed. -/
theorem arch_keyerror_counterexample :
    pyLookup ([] : Archs) "myarch" = none ∧
    (orchestrate [] "ud"
        [("custom-config", "https://example.com/cfg.zip"), ("arch", "myarch"),
         ("kernel", "https://example.com/kernel.tar.xz"), ("network", "false")]
        [] [] ⟨2026, 10, 12, 8, 30, 0⟩ loadAlwaysErr).isOk = true :=
  ⟨rfl, rfl⟩

/-- Claim C9 (amended): with `custom_config` different from `"none"`,
`configure_board` fetches the custom config and returns
`(arch, "custom")` immediately, without validating `arch` against the
supported-architecture table; the later `archs[arch].network_available`
access of line 187 is unguarded and raises a `KeyError` for any arch
not in that table whenever it is evaluated — which, because Python's
`or` short-circuits, is exactly when the `network` input equals
`"true"` (its default) and the run got past the custom-kernel check. -/
theorem custom_config_skips_arch_validation (archs : Archs) (user_directory : String)
    (args : PyDict String) (devices python_packages : PyDict (PyDict String))
    (now : Datetime) (load_from_yaml : String → Params → Except ParseError Task)
    (hcc : argGet args "custom-config" "none" ≠ "none")
    (hker : pyStrip (argGet args "kernel" "") ≠ "")
    (hnet : argGet args "network" "true" = "true")
    (harch : pyLookup archs (argGet args "arch" "riscv64") = none) :
    configure_board archs user_directory (argGet args "custom-config" "none")
        (argGet args "arch" "riscv64") (argGet args "board" "default")
        (argGet args "resc" "default") (argGet args "repl" "default") =
      .ok ⟨[(argGet args "custom-config" "none", "action/device/custom")],
        argGet args "arch" "riscv64", "custom"⟩ ∧
    orchestrate archs user_directory args devices python_packages now load_from_yaml =
      .error ("KeyError: " ++ argGet args "arch" "riscv64") := by
  have hcb : configure_board archs user_directory (argGet args "custom-config" "none")
      (argGet args "arch" "riscv64") (argGet args "board" "default")
      (argGet args "resc" "default") (argGet args "repl" "default") =
      .ok ⟨[(argGet args "custom-config" "none", "action/device/custom")],
        argGet args "arch" "riscv64", "custom"⟩ := by
    simp [configure_board, hcc]
  refine ⟨hcb, ?_⟩
  rw [orchestrate_of_board_ok archs user_directory args devices python_packages now
    load_from_yaml _ hcb]
  unfold orchestrate_after_board
  rw [if_neg (fun hand => hker hand.1), if_pos hnet]
  simp [harch]

theorem custom_config_skips_arch_validation_witness :
    configure_board [] "ud" "https://example.com/cfg.zip" "myarch" "default" "default"
        "default" =
      .ok ⟨[("https://example.com/cfg.zip", "action/device/custom")], "myarch",
        "custom"⟩ ∧
    orchestrate [] "ud"
        [("custom-config", "https://example.com/cfg.zip"), ("arch", "myarch"),
         ("kernel", "https://example.com/kernel.tar.xz")]
        [] [] ⟨2026, 10, 12, 8, 30, 0⟩ loadAlwaysErr =
      .error ("KeyError: " ++ "myarch") :=
  custom_config_skips_arch_validation [] "ud"
    [("custom-config", "https://example.com/cfg.zip"), ("arch", "myarch"),
     ("kernel", "https://example.com/kernel.tar.xz")]
    [] [] ⟨2026, 10, 12, 8, 30, 0⟩ loadAlwaysErr
    (by decide) (by decide) (by decide) (by decide)

end RenodeAction
